import Mathlib

/-!
# Verification of the landing-page content model

A shallow embedding of the repository's data model (`app/models.py`), its
service layer (`app/landing_service.py`) and the feature-partition logic of
the UI assembler (`app/landing_page.py`), together with theorems settling the
specification's claims about them.

The relational store is modelled as lists of rows (one list per table) in
insertion order, with per-table id counters (SQLite rowid/autoincrement) and
an abstract clock standing for the `datetime.utcnow` timestamps.  `ORDER BY`
is modelled as a stable sort (`List.insertionSort`) of the filtered rows, and
the unique constraint on `LandingPage.slug` is enforced at insert time,
surfacing as `DbError.constraintError` (SQLAlchemy's `IntegrityError`); a
failed insert leaves the store unchanged (the session is rolled back on the
error path).
-/

namespace LandingSpec

/-- Persisted row of table `landing_pages` (`app/models.py`, class
`LandingPage`).  `id` is the server-assigned primary key; timestamps are
abstract clock ticks. -/
structure LandingPage where
  id : Nat
  title : String
  slug : String
  is_active : Bool := true
  meta_title : Option String := none
  meta_description : Option String := none
  created_at : Nat := 0
  updated_at : Nat := 0
deriving DecidableEq, Repr

/-- Persisted row of table `hero_sections` (`app/models.py`, class
`HeroSection`). -/
structure HeroSection where
  id : Nat
  landing_page_id : Nat
  headline : String
  subheadline : Option String := none
  description : Option String := none
  background_image_url : Option String := none
  background_color : Option String := none
  text_color : Option String := none
  primary_button_text : Option String := none
  primary_button_url : Option String := none
  secondary_button_text : Option String := none
  secondary_button_url : Option String := none
  alignment : String := "center"
  height : String := "full"
  display_order : Int := 0
  is_active : Bool := true
  created_at : Nat := 0
  updated_at : Nat := 0
deriving DecidableEq, Repr

/-- Persisted row of table `features` (`app/models.py`, class `Feature`). -/
structure Feature where
  id : Nat
  landing_page_id : Nat
  title : String
  description : String
  icon : Option String := none
  icon_color : Option String := none
  image_url : Option String := none
  link_text : Option String := none
  link_url : Option String := none
  background_color : Option String := none
  text_color : Option String := none
  display_order : Int := 0
  is_featured : Bool := false
  is_active : Bool := true
  created_at : Nat := 0
  updated_at : Nat := 0
deriving DecidableEq, Repr

/-- Persisted row of table `cta_sections` (`app/models.py`, class
`CallToActionSection`). -/
structure CallToActionSection where
  id : Nat
  landing_page_id : Nat
  headline : String
  subheadline : Option String := none
  description : Option String := none
  primary_button_text : String
  primary_button_url : String
  primary_button_style : String := "primary"
  secondary_button_text : Option String := none
  secondary_button_url : Option String := none
  secondary_button_style : String := "secondary"
  background_color : Option String := none
  text_color : Option String := none
  background_image_url : Option String := none
  alignment : String := "center"
  size : String := "medium"
  display_order : Int := 0
  is_active : Bool := true
  created_at : Nat := 0
  updated_at : Nat := 0
deriving DecidableEq, Repr

/-- Input schema `LandingPageCreate` (`app/models.py`): exactly the four
declared fields.  Pydantic models ignore constructor arguments that are not
declared fields, so these schemas are the whole write surface of the
creation operations. -/
structure LandingPageCreate where
  title : String
  slug : String
  meta_title : Option String := none
  meta_description : Option String := none
deriving DecidableEq, Repr

/-- Input schema `HeroSectionCreate` (`app/models.py`).  Note that
`background_color`, `text_color`, `secondary_button_text/url`, `height` and
`display_order` are NOT declared on this schema, so callers cannot set them
through `create_hero_section`. -/
structure HeroSectionCreate where
  landing_page_id : Nat
  headline : String
  subheadline : Option String := none
  description : Option String := none
  background_image_url : Option String := none
  primary_button_text : Option String := none
  primary_button_url : Option String := none
  alignment : String := "center"
deriving DecidableEq, Repr

/-- Input schema `FeatureCreate` (`app/models.py`).  Note that
`display_order`, `icon_color`, `background_color` and `text_color` are NOT
declared on this schema: the keyword arguments `display_order=…` and
`icon_color=…` passed at the call sites in `create_sample_data` and in the
test suite are silently dropped by pydantic. -/
structure FeatureCreate where
  landing_page_id : Nat
  title : String
  description : String
  icon : Option String := none
  image_url : Option String := none
  link_text : Option String := none
  link_url : Option String := none
  is_featured : Bool := false
deriving DecidableEq, Repr

/-- Input schema `CallToActionSectionCreate` (`app/models.py`).  Note that
`background_color`, `size`, `display_order` and the button styles are NOT
declared on this schema. -/
structure CallToActionSectionCreate where
  landing_page_id : Nat
  headline : String
  subheadline : Option String := none
  description : Option String := none
  primary_button_text : String
  primary_button_url : String
  secondary_button_text : Option String := none
  secondary_button_url : Option String := none
  alignment : String := "center"
deriving DecidableEq, Repr

/-- The record store: one list of rows per table, in insertion (rowid)
order, with per-table id counters and the clock used for timestamps. -/
structure Store where
  pages : List LandingPage := []
  heroes : List HeroSection := []
  features : List Feature := []
  ctas : List CallToActionSection := []
  nextPageId : Nat := 1
  nextHeroId : Nat := 1
  nextFeatureId : Nat := 1
  nextCtaId : Nat := 1
  clock : Nat := 0
deriving DecidableEq, Repr

/-- The empty store (fresh database after `reset_db`). -/
def Store.empty : Store := {}

/-- Errors surfaced by the store.  `constraintError` models SQLAlchemy's
`IntegrityError` on a unique violation; `insertFailed` models any other
store-level failure of a single insert. -/
inductive DbError where
  | constraintError
  | insertFailed
deriving DecidableEq, Repr

instance {ε α : Type} [DecidableEq ε] [DecidableEq α] : DecidableEq (Except ε α) :=
  fun x y =>
    match x, y with
    | .error e, .error f =>
      if h : e = f then .isTrue (by rw [h]) else .isFalse (by intro hh; injection hh; contradiction)
    | .error _, .ok _ => .isFalse (by intro h; cases h)
    | .ok _, .error _ => .isFalse (by intro h; cases h)
    | .ok a, .ok b =>
      if h : a = b then .isTrue (by rw [h]) else .isFalse (by intro hh; injection hh; contradiction)

/-- `ORDER BY display_order ASC` key for hero sections
(`landing_service.py` line 41). -/
def heroOrder (a b : HeroSection) : Prop :=
  a.display_order ≤ b.display_order

instance : DecidableRel heroOrder := fun a b =>
  inferInstanceAs (Decidable (a.display_order ≤ b.display_order))

/-- Strict lexicographic comparison of character lists, mirroring the
store's binary collation on text columns (UTF-8 byte order coincides with
code-point order). -/
def charListLtb : List Char → List Char → Bool
  | [], [] => false
  | [], _ :: _ => true
  | _ :: _, [] => false
  | a :: as, b :: bs => if a < b then true else if b < a then false else charListLtb as bs

/-- `a ≤ b` on strings under binary collation, as a computable test. -/
def strLeb (a b : String) : Bool :=
  !charListLtb b.data a.data

/-- `charListLtb` computes the lexicographic order on `List Char`. -/
theorem charListLtb_iff :
    ∀ x y : List Char, charListLtb x y = true ↔ x < y := by
  intro x
  induction x with
  | nil =>
    intro y
    cases y with
    | nil =>
      simp only [charListLtb, Bool.false_eq_true, false_iff]
      exact fun h => List.Lex.not_nil_right _ _ h
    | cons b bs =>
      simp only [charListLtb, true_iff]
      exact List.Lex.nil
  | cons a as ih =>
    intro y
    cases y with
    | nil =>
      simp only [charListLtb, Bool.false_eq_true, false_iff]
      exact fun h => List.Lex.not_nil_right _ _ h
    | cons b bs =>
      simp only [charListLtb]
      rcases lt_trichotomy a b with hab | heq | hba
      · rw [if_pos hab]
        simp only [true_iff]
        exact List.Lex.rel hab
      · subst heq
        rw [if_neg (lt_irrefl a), if_neg (lt_irrefl a)]
        constructor
        · exact fun h => List.Lex.cons ((ih bs).1 h)
        · intro h
          cases h with
          | cons h' => exact (ih bs).2 h'
          | rel h' => exact absurd h' (lt_irrefl a)
      · rw [if_neg (asymm hba), if_pos hba]
        simp only [Bool.false_eq_true, false_iff]
        intro h
        cases h with
        | cons h' => exact lt_irrefl _ hba
        | rel h' => exact asymm hba h'

/-- `strLeb` computes the linear order on `String`. -/
theorem strLeb_iff (a b : String) : strLeb a b = true ↔ a ≤ b := by
  have h2 : strLeb a b = true ↔ ¬b.data < a.data := by
    unfold strLeb
    rw [← charListLtb_iff b.data a.data]
    cases charListLtb b.data a.data <;> simp
  rw [h2, not_lt, String.le_iff_toList_le]
  exact Iff.rfl

/-- `ORDER BY display_order ASC, title ASC` key for features
(`landing_service.py` line 57): ascending display order with ties broken by
title, lexicographically ascending. -/
def featureOrder (a b : Feature) : Prop :=
  a.display_order < b.display_order ∨
    (a.display_order = b.display_order ∧ strLeb a.title b.title = true)

instance : DecidableRel featureOrder := fun a b =>
  inferInstanceAs (Decidable (a.display_order < b.display_order ∨
    (a.display_order = b.display_order ∧ strLeb a.title b.title = true)))

instance : IsTotal Feature featureOrder := by
  constructor
  intro a b
  rcases lt_trichotomy a.display_order b.display_order with h | h | h
  · exact .inl (.inl h)
  · rcases le_total a.title b.title with ht | ht
    · exact .inl (.inr ⟨h, (strLeb_iff _ _).2 ht⟩)
    · exact .inr (.inr ⟨h.symm, (strLeb_iff _ _).2 ht⟩)
  · exact .inr (.inl h)

instance : IsTrans Feature featureOrder := by
  constructor
  intro a b c hab hbc
  rcases hab with h1 | ⟨h1, t1⟩ <;> rcases hbc with h2 | ⟨h2, t2⟩
  · exact .inl (h1.trans h2)
  · exact .inl (h2 ▸ h1)
  · exact .inl (h1 ▸ h2)
  · exact .inr ⟨h1.trans h2,
      (strLeb_iff _ _).2 (le_trans ((strLeb_iff _ _).1 t1) ((strLeb_iff _ _).1 t2))⟩

/-- `ORDER BY display_order ASC` key for CTA sections
(`landing_service.py` line 73). -/
def ctaOrder (a b : CallToActionSection) : Prop :=
  a.display_order ≤ b.display_order

instance : DecidableRel ctaOrder := fun a b =>
  inferInstanceAs (Decidable (a.display_order ≤ b.display_order))

instance : IsTotal HeroSection heroOrder :=
  ⟨fun a b => le_total a.display_order b.display_order⟩

instance : IsTrans HeroSection heroOrder :=
  ⟨fun _ _ _ h1 h2 => le_trans h1 h2⟩

instance : IsTotal CallToActionSection ctaOrder :=
  ⟨fun a b => le_total a.display_order b.display_order⟩

instance : IsTrans CallToActionSection ctaOrder :=
  ⟨fun _ _ _ h1 h2 => le_trans h1 h2⟩

/-- `LandingPageService.get_hero_sections` (`landing_service.py` lines
29-43): active hero sections of the page, sorted ascending by
`display_order` (stable in scan order). -/
def get_hero_sections (st : Store) (landing_page_id : Nat) : List HeroSection :=
  List.insertionSort heroOrder
    (st.heroes.filter fun h => h.landing_page_id == landing_page_id && h.is_active)

/-- `LandingPageService.get_features` (`landing_service.py` lines 45-59):
active features of the page, sorted ascending by `display_order` then by
`title`. -/
def get_features (st : Store) (landing_page_id : Nat) : List Feature :=
  List.insertionSort featureOrder
    (st.features.filter fun f => f.landing_page_id == landing_page_id && f.is_active)

/-- `LandingPageService.get_cta_sections` (`landing_service.py` lines
61-75): active CTA sections of the page, sorted ascending by
`display_order`. -/
def get_cta_sections (st : Store) (landing_page_id : Nat) : List CallToActionSection :=
  List.insertionSort ctaOrder
    (st.ctas.filter fun c => c.landing_page_id == landing_page_id && c.is_active)

/-- Primary-key lookup in `landing_pages` (the store's generic fetch by id,
as performed by `session.refresh`). -/
def get_landing_page_by_id (st : Store) (i : Nat) : Option LandingPage :=
  st.pages.find? fun p => p.id == i

/-- Primary-key lookup in `hero_sections`. -/
def get_hero_section_by_id (st : Store) (i : Nat) : Option HeroSection :=
  st.heroes.find? fun h => h.id == i

/-- Primary-key lookup in `features`. -/
def get_feature_by_id (st : Store) (i : Nat) : Option Feature :=
  st.features.find? fun f => f.id == i

/-- Primary-key lookup in `cta_sections`. -/
def get_cta_section_by_id (st : Store) (i : Nat) : Option CallToActionSection :=
  st.ctas.find? fun c => c.id == i

/-- `LandingPage(**data.model_dump())` followed by the defaults of
`app/models.py`: the schema's fields are copied, every other column takes
its model default. -/
def LandingPage.fromCreate (i clock : Nat) (d : LandingPageCreate) : LandingPage :=
  { id := i
    title := d.title
    slug := d.slug
    is_active := true
    meta_title := d.meta_title
    meta_description := d.meta_description
    created_at := clock
    updated_at := clock }

/-- `HeroSection(**data.model_dump())`: schema fields copied, all other
columns defaulted (`background_color`/`text_color` null, `height` "full",
`display_order` 0, `is_active` true). -/
def HeroSection.fromCreate (i clock : Nat) (d : HeroSectionCreate) : HeroSection :=
  { id := i
    landing_page_id := d.landing_page_id
    headline := d.headline
    subheadline := d.subheadline
    description := d.description
    background_image_url := d.background_image_url
    background_color := none
    text_color := none
    primary_button_text := d.primary_button_text
    primary_button_url := d.primary_button_url
    secondary_button_text := none
    secondary_button_url := none
    alignment := d.alignment
    height := "full"
    display_order := 0
    is_active := true
    created_at := clock
    updated_at := clock }

/-- `Feature(**data.model_dump())`: schema fields copied, all other columns
defaulted (`icon_color`/`background_color`/`text_color` null,
`display_order` 0, `is_active` true). -/
def Feature.fromCreate (i clock : Nat) (d : FeatureCreate) : Feature :=
  { id := i
    landing_page_id := d.landing_page_id
    title := d.title
    description := d.description
    icon := d.icon
    icon_color := none
    image_url := d.image_url
    link_text := d.link_text
    link_url := d.link_url
    background_color := none
    text_color := none
    display_order := 0
    is_featured := d.is_featured
    is_active := true
    created_at := clock
    updated_at := clock }

/-- `CallToActionSection(**data.model_dump())`: schema fields copied, all
other columns defaulted (styles "primary"/"secondary", `size` "medium",
`display_order` 0, `is_active` true). -/
def CallToActionSection.fromCreate (i clock : Nat) (d : CallToActionSectionCreate) :
    CallToActionSection :=
  { id := i
    landing_page_id := d.landing_page_id
    headline := d.headline
    subheadline := d.subheadline
    description := d.description
    primary_button_text := d.primary_button_text
    primary_button_url := d.primary_button_url
    primary_button_style := "primary"
    secondary_button_text := d.secondary_button_text
    secondary_button_url := d.secondary_button_url
    secondary_button_style := "secondary"
    background_color := none
    text_color := none
    background_image_url := none
    alignment := d.alignment
    size := "medium"
    display_order := 0
    is_active := true
    created_at := clock
    updated_at := clock }

/-- `LandingPageService.create_landing_page` (`landing_service.py` lines
77-85).  The unique constraint on `slug` (`models.py` line 15) rejects a
duplicate slug with `IntegrityError`; on that error path the session is
rolled back, so the store is returned unchanged. -/
def create_landing_page (st : Store) (d : LandingPageCreate) :
    Except DbError LandingPage × Store :=
  if st.pages.any fun p => p.slug == d.slug then
    (.error .constraintError, st)
  else
    let row := LandingPage.fromCreate st.nextPageId st.clock d
    (.ok row,
      { st with
          pages := st.pages ++ [row]
          nextPageId := st.nextPageId + 1
          clock := st.clock + 1 })

/-- `LandingPageService.create_hero_section` (`landing_service.py` lines
87-95). -/
def create_hero_section (st : Store) (d : HeroSectionCreate) : HeroSection × Store :=
  let row := HeroSection.fromCreate st.nextHeroId st.clock d
  (row,
    { st with
        heroes := st.heroes ++ [row]
        nextHeroId := st.nextHeroId + 1
        clock := st.clock + 1 })

/-- `LandingPageService.create_feature` (`landing_service.py` lines
97-105). -/
def create_feature (st : Store) (d : FeatureCreate) : Feature × Store :=
  let row := Feature.fromCreate st.nextFeatureId st.clock d
  (row,
    { st with
        features := st.features ++ [row]
        nextFeatureId := st.nextFeatureId + 1
        clock := st.clock + 1 })

/-- `LandingPageService.create_cta_section` (`landing_service.py` lines
107-115). -/
def create_cta_section (st : Store) (d : CallToActionSectionCreate) :
    CallToActionSection × Store :=
  let row := CallToActionSection.fromCreate st.nextCtaId st.clock d
  (row,
    { st with
        ctas := st.ctas ++ [row]
        nextCtaId := st.nextCtaId + 1
        clock := st.clock + 1 })

/-! ## Sample / bootstrap content generator

`LandingPageService.create_sample_data` (`landing_service.py` lines
129-233).  The literals below are copied from the source.  The source call
sites additionally pass keyword arguments that are NOT declared on the
input schemas and are therefore dropped by pydantic before they reach the
store: `background_color`, `text_color` and `height` on the hero;
`display_order` (1 to 6) and `icon_color` on every feature;
`background_color` and `size` on the CTA.  Those arguments consequently do
not appear below: the schema structures cannot carry them, exactly as the
constructed pydantic objects cannot. -/

/-- The page literal of `create_sample_data` (`landing_service.py` lines
133-138). -/
def sampleLandingPageCreate : LandingPageCreate :=
  { title := "Modern Landing Page"
    slug := "home"
    meta_title := some "Modern Landing Page - Beautiful Design"
    meta_description :=
      some "A modern and elegant landing page with clean design and engaging features." }

/-- The hero literal of `create_sample_data` (`landing_service.py` lines
145-156); the `background_color`, `text_color` and `height` keyword
arguments of the source are not schema fields and are dropped. -/
def sampleHeroCreate (pid : Nat) : HeroSectionCreate :=
  { landing_page_id := pid
    headline := "Transform Your Business with Modern Solutions"
    subheadline := some "Unlock your potential with our cutting-edge platform"
    description := some
      "Experience the future of business automation with our intuitive, powerful, and beautifully designed platform that grows with your needs."
    primary_button_text := some "Get Started"
    primary_button_url := some "/signup"
    alignment := "center" }

/-- The six feature literals of `create_sample_data` (`landing_service.py`
lines 160-212); the `display_order` (1 to 6) and `icon_color` keyword
arguments of the source are not schema fields and are dropped. -/
def sampleFeatureCreates (pid : Nat) : List FeatureCreate :=
  [ { landing_page_id := pid
      title := "Lightning Fast Performance"
      description :=
        "Built with modern technology stack for maximum speed and reliability. Experience blazing-fast load times and seamless user interactions."
      icon := some "speed"
      is_featured := true }
  , { landing_page_id := pid
      title := "Intuitive Design"
      description :=
        "User-centered design that makes complex tasks simple. Our interface adapts to your workflow, not the other way around."
      icon := some "design_services"
      is_featured := true }
  , { landing_page_id := pid
      title := "Enterprise Security"
      description :=
        "Bank-level security with end-to-end encryption, SSO integration, and compliance with industry standards."
      icon := some "security"
      is_featured := true }
  , { landing_page_id := pid
      title := "24/7 Support"
      description :=
        "Our dedicated support team is available around the clock to help you succeed with personalized assistance."
      icon := some "support_agent" }
  , { landing_page_id := pid
      title := "Scalable Infrastructure"
      description :=
        "From startup to enterprise, our platform scales with your business without compromising performance."
      icon := some "trending_up" }
  , { landing_page_id := pid
      title := "Advanced Analytics"
      description :=
        "Make data-driven decisions with comprehensive analytics and real-time insights into your business metrics."
      icon := some "analytics" } ]

/-- The CTA literal of `create_sample_data` (`landing_service.py` lines
218-230); the `background_color` and `size` keyword arguments of the source
are not schema fields and are dropped. -/
def sampleCtaCreate (pid : Nat) : CallToActionSectionCreate :=
  { landing_page_id := pid
    headline := "Ready to Transform Your Business?"
    subheadline := some "Join thousands of satisfied customers"
    description := some
      "Start your journey today with our free trial. No credit card required, no hidden fees, just pure innovation at your fingertips."
    primary_button_text := "Start Free Trial"
    primary_button_url := "/trial"
    secondary_button_text := some "View Pricing"
    secondary_button_url := some "/pricing"
    alignment := "center" }

/-- Runs the six feature inserts of `create_sample_data` in sequence,
counting inserts from index `k`.  `failStep = some i` injects a store-level
failure at the `i`-th insert of the whole sequence: the failing insert does
nothing, the error is returned, and — each insert having committed in its
own session — every earlier insert stays in the returned store. -/
def insertFeaturesFx (failStep : Option Nat) :
    Nat → List FeatureCreate → Store → Except DbError Unit × Store
  | _, [], st => (.ok (), st)
  | k, d :: ds, st =>
    if failStep = some k then (.error .insertFailed, st)
    else insertFeaturesFx failStep (k + 1) ds (create_feature st d).2

/-- `LandingPageService.create_sample_data` (`landing_service.py` lines
129-233) with an injected failure point.  The sequence performs nine
inserts, each committed in its own session: insert 0 the page, insert 1 the
hero, inserts 2-7 the six features, insert 8 the CTA.  `failStep = some i`
makes the `i`-th insert fail at the store level; there is no enclosing
transaction, so everything inserted before `i` remains.  An error — from
the injected failure or from the slug unique constraint — aborts the rest
of the sequence and propagates, with the store as committed so far. -/
def create_sample_data_fx (st0 : Store) (failStep : Option Nat) :
    Except DbError LandingPage × Store :=
  if failStep = some 0 then (.error .insertFailed, st0)
  else
    match create_landing_page st0 sampleLandingPageCreate with
    | (.error e, st) => (.error e, st)
    | (.ok page, st1) =>
      if failStep = some 1 then (.error .insertFailed, st1)
      else
        let st2 := (create_hero_section st1 (sampleHeroCreate page.id)).2
        match insertFeaturesFx failStep 2 (sampleFeatureCreates page.id) st2 with
        | (.error e, st) => (.error e, st)
        | (.ok _, st3) =>
          if failStep = some 8 then (.error .insertFailed, st3)
          else (.ok page, (create_cta_section st3 (sampleCtaCreate page.id)).2)

/-- `LandingPageService.create_sample_data` on a store in which no insert
fails: the nine inserts run in sequence and the created page is returned. -/
def create_sample_data (st : Store) : Except DbError LandingPage × Store :=
  create_sample_data_fx st none

/-! ## Feature partition of the UI assembler -/

/-- `featured_features` of `create_features_section` (`landing_page.py`
line 237): `[f for f in features if f.is_featured][:3]` — the featured
features of the already-ordered list, truncated to the first three. -/
def featured_features (features : List Feature) : List Feature :=
  (features.filter fun f => f.is_featured).take 3

/-- `other_features` of `create_features_section` (`landing_page.py` line
245): `[f for f in features if not f.is_featured]` — exactly the
non-featured features, in order. -/
def other_features (features : List Feature) : List Feature :=
  features.filter fun f => !f.is_featured

/-! ## Store well-formedness -/

/-- Well-formed store: every persisted id is below its table's next id, as
maintained by the autoincrementing primary keys.  This makes primary-key
lookups of a freshly inserted row unambiguous. -/
def Store.WF (st : Store) : Prop :=
  (∀ p ∈ st.pages, p.id < st.nextPageId) ∧
  (∀ h ∈ st.heroes, h.id < st.nextHeroId) ∧
  (∀ f ∈ st.features, f.id < st.nextFeatureId) ∧
  (∀ c ∈ st.ctas, c.id < st.nextCtaId)

instance (st : Store) : Decidable st.WF :=
  inferInstanceAs (Decidable (_ ∧ _ ∧ _ ∧ _))

/-! ## Concrete fixtures used by the example conjuncts and the witnesses -/

/-- Fixture: feature with `(display_order, title) = (2, "B")`. -/
def exOrdB : Feature :=
  { id := 1, landing_page_id := 10, title := "B", description := "b", display_order := 2 }

/-- Fixture: feature with `(display_order, title) = (1, "A")`. -/
def exOrdA : Feature :=
  { id := 2, landing_page_id := 10, title := "A", description := "a", display_order := 1 }

/-- Fixture store holding `exOrdB` then `exOrdA` for page 10. -/
def exStoreOrd : Store := { features := [exOrdB, exOrdA], nextFeatureId := 3 }

/-- Fixture: feature with `(display_order, title) = (1, "B")`. -/
def exTieB : Feature :=
  { id := 1, landing_page_id := 10, title := "B", description := "b", display_order := 1 }

/-- Fixture: feature with `(display_order, title) = (1, "A")`. -/
def exTieA : Feature :=
  { id := 2, landing_page_id := 10, title := "A", description := "a", display_order := 1 }

/-- Fixture store holding the tied features `exTieB` then `exTieA`. -/
def exStoreTie : Store := { features := [exTieB, exTieA], nextFeatureId := 3 }

/-- Fixture: an inactive hero section of page 1. -/
def exHeroInactive : HeroSection :=
  { id := 1, landing_page_id := 1, headline := "Hidden", is_active := false }

/-- Fixture store holding only the inactive hero section. -/
def exStoreInactive : Store := { heroes := [exHeroInactive], nextHeroId := 2 }

/-- Fixture: a page occupying the slug "dup". -/
def exDupPage : LandingPage := { id := 1, title := "Existing", slug := "dup" }

/-- Fixture store holding `exDupPage`. -/
def exStoreDup : Store := { pages := [exDupPage], nextPageId := 2 }

/-- Fixture: a creation payload colliding on slug "dup". -/
def exDupCreate : LandingPageCreate := { title := "Another", slug := "dup" }

/-- Fixture: a page creation payload. -/
def exPageCreate : LandingPageCreate :=
  { title := "T", slug := "t", meta_title := some "mt", meta_description := some "md" }

/-- Fixture: five features, all `is_featured`, with distinct ascending
`display_order` 1-5, as the repository would return them. -/
def exFeat5 (n : Nat) : Feature :=
  { id := n
    landing_page_id := 7
    title := "F"
    description := "d"
    display_order := (n : Int)
    is_featured := true }

/-- Fixture list of the five featured features in order. -/
def exFeats5 : List Feature := [exFeat5 1, exFeat5 2, exFeat5 3, exFeat5 4, exFeat5 5]

/-- The store produced by one bootstrap run on an empty database. -/
def stSeeded : Store := (create_sample_data Store.empty).2

/-! ## Helper lemmas -/

/-- Membership in `get_hero_sections`: exactly the active hero rows of the
page. -/
theorem lem_mem_get_hero_sections {st : Store} {pid : Nat} {h : HeroSection} :
    h ∈ get_hero_sections st pid ↔
      h ∈ st.heroes ∧ h.landing_page_id = pid ∧ h.is_active = true := by
  unfold get_hero_sections
  rw [(List.perm_insertionSort _ _).mem_iff, List.mem_filter]
  simp

/-- Membership in `get_features`: exactly the active feature rows of the
page. -/
theorem lem_mem_get_features {st : Store} {pid : Nat} {f : Feature} :
    f ∈ get_features st pid ↔
      f ∈ st.features ∧ f.landing_page_id = pid ∧ f.is_active = true := by
  unfold get_features
  rw [(List.perm_insertionSort _ _).mem_iff, List.mem_filter]
  simp

/-- Membership in `get_cta_sections`: exactly the active CTA rows of the
page. -/
theorem lem_mem_get_cta_sections {st : Store} {pid : Nat} {c : CallToActionSection} :
    c ∈ get_cta_sections st pid ↔
      c ∈ st.ctas ∧ c.landing_page_id = pid ∧ c.is_active = true := by
  unfold get_cta_sections
  rw [(List.perm_insertionSort _ _).mem_iff, List.mem_filter]
  simp

/-- A slug collision makes `create_landing_page` fail with the constraint
error and leave the store untouched. -/
theorem lem_create_page_collision (st : Store) (d : LandingPageCreate)
    (h : ∃ p ∈ st.pages, p.slug = d.slug) :
    create_landing_page st d = (.error .constraintError, st) := by
  unfold create_landing_page
  have hany : (st.pages.any fun p => p.slug == d.slug) = true := by
    rw [List.any_eq_true]
    obtain ⟨p, hp, he⟩ := h
    exact ⟨p, hp, by simp [he]⟩
  rw [if_pos hany]

/-- Without a slug collision, `create_landing_page` appends the new row. -/
theorem lem_create_page_success (st : Store) (d : LandingPageCreate)
    (h : ∀ p ∈ st.pages, p.slug ≠ d.slug) :
    create_landing_page st d =
      (.ok (LandingPage.fromCreate st.nextPageId st.clock d),
        { st with
            pages := st.pages ++ [LandingPage.fromCreate st.nextPageId st.clock d]
            nextPageId := st.nextPageId + 1
            clock := st.clock + 1 }) := by
  unfold create_landing_page
  have hany : (st.pages.any fun p => p.slug == d.slug) = false := by
    rw [Bool.eq_false_iff]
    intro hc
    rw [List.any_eq_true] at hc
    obtain ⟨p, hp, he⟩ := hc
    exact h p hp (by simpa using he)
  rw [if_neg (by simp [hany])]

/-- `find?` over an append whose left part has no hit returns the appended
element. -/
theorem lem_find?_append_last {α : Type} (p : α → Bool) (l : List α) (a : α)
    (hl : ∀ x ∈ l, p x = false) (ha : p a = true) :
    (l ++ [a]).find? p = some a := by
  induction l with
  | nil => simp [List.find?, ha]
  | cons x xs ih =>
    rw [List.cons_append, List.find?_cons_of_neg _ (by simp [hl x (by simp)])]
    exact ih fun y hy => hl y (by simp [hy])

/-! ## Claims -/

/-- C1: for every page id, `getFeatures` returns exactly the features with
`landing_page_id` equal to that id and `is_active` true, sorted ascending
by `display_order` with ties broken by `title` ascending; in particular
features with `(display_order, title)` pairs `(2,"B")`, `(1,"A")` come back
as `["A","B"]`, and tied pairs `(1,"B")`, `(1,"A")` come back as
`["A","B"]`. -/
theorem getFeatures_filter_sort_spec :
    (∀ (st : Store) (pid : Nat) (f : Feature),
        f ∈ get_features st pid ↔
          f ∈ st.features ∧ f.landing_page_id = pid ∧ f.is_active = true) ∧
    (∀ (st : Store) (pid : Nat),
        (get_features st pid).Perm
            (st.features.filter fun f => f.landing_page_id == pid && f.is_active) ∧
        List.Sorted featureOrder (get_features st pid)) ∧
    (get_features exStoreOrd 10).map Feature.title = ["A", "B"] ∧
    (get_features exStoreTie 10).map Feature.title = ["A", "B"] := by
  refine ⟨fun st pid f => lem_mem_get_features,
    fun st pid => ⟨List.perm_insertionSort _ _, List.sorted_insertionSort _ _⟩,
    by decide, by decide⟩

/-- C2: a component row with `is_active = false` is never contained in the
result of `getHeroSections`, `getFeatures` or `getCtaSections`, for any
store and any page id. -/
theorem inactive_rows_invisible (st : Store) (pid : Nat) :
    (∀ h : HeroSection, h.is_active = false → h ∉ get_hero_sections st pid) ∧
    (∀ f : Feature, f.is_active = false → f ∉ get_features st pid) ∧
    (∀ c : CallToActionSection, c.is_active = false → c ∉ get_cta_sections st pid) := by
  refine ⟨fun h hh hmem => ?_, fun f hf hmem => ?_, fun c hc hmem => ?_⟩
  · rw [(lem_mem_get_hero_sections.1 hmem).2.2] at hh
    exact absurd hh (by decide)
  · rw [(lem_mem_get_features.1 hmem).2.2] at hf
    exact absurd hf (by decide)
  · rw [(lem_mem_get_cta_sections.1 hmem).2.2] at hc
    exact absurd hc (by decide)

/-- Witness for C2: the inactive hero row stays in the store yet is not in
the accessor's result. -/
theorem inactive_rows_invisible_witness :
    exHeroInactive ∈ exStoreInactive.heroes ∧
    exHeroInactive ∉ get_hero_sections exStoreInactive 1 :=
  ⟨by decide, (inactive_rows_invisible exStoreInactive 1).1 exHeroInactive (by decide)⟩

/-- C5: when no row matches — unknown page id or page without components —
each component accessor returns the empty sequence (the accessors are total
functions: no error path exists). -/
theorem accessors_empty_on_no_rows (st : Store) (pid : Nat)
    (hh : ∀ h ∈ st.heroes, ¬(h.landing_page_id = pid ∧ h.is_active = true))
    (hf : ∀ f ∈ st.features, ¬(f.landing_page_id = pid ∧ f.is_active = true))
    (hc : ∀ c ∈ st.ctas, ¬(c.landing_page_id = pid ∧ c.is_active = true)) :
    get_hero_sections st pid = [] ∧ get_features st pid = [] ∧ get_cta_sections st pid = [] := by
  refine ⟨?_, ?_, ?_⟩
  · unfold get_hero_sections
    rw [List.filter_eq_nil_iff.2 (by intro a ha; simpa using hh a ha)]
    rfl
  · unfold get_features
    rw [List.filter_eq_nil_iff.2 (by intro a ha; simpa using hf a ha)]
    rfl
  · unfold get_cta_sections
    rw [List.filter_eq_nil_iff.2 (by intro a ha; simpa using hc a ha)]
    rfl

/-- Witness for C5: the seeded store has exactly one page (id 1); id 999
matches nothing and yields three empty sequences. -/
theorem accessors_empty_on_no_rows_witness :
    get_hero_sections stSeeded 999 = [] ∧
    get_features stSeeded 999 = [] ∧
    get_cta_sections stSeeded 999 = [] :=
  accessors_empty_on_no_rows stSeeded 999 (by decide) (by decide) (by decide)

/-- C6: creating a page whose slug is already taken fails with the store's
unique-violation signal and leaves the store — in particular its page set —
unchanged. -/
theorem createPage_duplicate_slug (st : Store) (d : LandingPageCreate)
    (h : ∃ p ∈ st.pages, p.slug = d.slug) :
    create_landing_page st d = (.error .constraintError, st) :=
  lem_create_page_collision st d h

/-- Witness for C6: the second creation call on slug "dup" errors and
leaves the store as it was. -/
theorem createPage_duplicate_slug_witness :
    create_landing_page exStoreDup exDupCreate = (.error .constraintError, exStoreDup) :=
  createPage_duplicate_slug exStoreDup exDupCreate (by decide)

/-- Counterexample to C3: with five featured features in order, the
assembler's `featured` partition holds the first three, but the remaining
two featured features land in NEITHER partition — `other_features`
(`landing_page.py` line 245) keeps only non-featured features, so here it
is empty and does not contain the fourth feature, contrary to the claim. -/
theorem featured_cap_counterexample :
    featured_features exFeats5 = [exFeat5 1, exFeat5 2, exFeat5 3] ∧
    exFeat5 4 ∈ exFeats5 ∧
    (exFeat5 4).is_featured = true ∧
    exFeat5 4 ∉ other_features exFeats5 ∧
    other_features exFeats5 = [] := by decide

/-- C3 (amended): `featured` is exactly the FIRST three featured features
of the already-ordered list — it equals `take 3` of the featured filter,
whose remainder is the dropped tail — hence an order-preserving sublist,
all featured, of length `min 3 (count of featured)`; and `others` is
exactly the non-featured features in order.  A featured feature is never in
`others`, so featured features beyond the first three appear in neither
partition. -/
theorem featured_cap_amended (l : List Feature) :
    featured_features l = (l.filter fun f => f.is_featured).take 3 ∧
    featured_features l ++ (l.filter fun f => f.is_featured).drop 3 =
      l.filter (fun f => f.is_featured) ∧
    List.Sublist (featured_features l) l ∧
    (∀ f ∈ featured_features l, f.is_featured = true) ∧
    (featured_features l).length = min 3 (l.countP fun f => f.is_featured) ∧
    List.Sublist (other_features l) l ∧
    (∀ f : Feature, f ∈ other_features l ↔ f ∈ l ∧ f.is_featured = false) ∧
    (∀ f ∈ l, f.is_featured = true → f ∉ other_features l) := by
  refine ⟨rfl, List.take_append_drop 3 _, ?_, ?_, ?_, ?_, ?_, ?_⟩
  · exact (List.take_sublist 3 _).trans (List.filter_sublist _)
  · intro f hf
    have := List.take_subset 3 _ hf
    exact (List.mem_filter.1 this).2
  · simp [featured_features, List.length_take, List.countP_eq_length_filter]
  · exact List.filter_sublist _
  · intro f
    simp [other_features, List.mem_filter]
  · intro f _ hfeat hmem
    have h5 := List.mem_filter.1 hmem
    rw [hfeat] at h5
    simpa using h5.2

/-- Witness for C3: the fifth featured feature is excluded from the
`others` partition. -/
theorem featured_cap_amended_witness :
    exFeat5 5 ∉ other_features exFeats5 :=
  (featured_cap_amended exFeats5).2.2.2.2.2.2.2 (exFeat5 5) (by decide) (by decide)

/-- C4 (evaluation at the failing input): one bootstrap run on an empty
store creates exactly one page, with slug "home", one hero section, six
features of which exactly three are featured, and one CTA section, all
linked to the page — but every persisted feature has `display_order = 0`
(and no `icon_color`), because `FeatureCreate` declares no `display_order`
or `icon_color` field and the explicit 1-6 values passed in
`create_sample_data` are dropped before persistence. -/
theorem sample_data_persisted_shape :
    (create_sample_data Store.empty).2.pages.map LandingPage.slug = ["home"] ∧
    (create_sample_data Store.empty).2.heroes.length = 1 ∧
    (create_sample_data Store.empty).2.features.length = 6 ∧
    ((create_sample_data Store.empty).2.features.countP fun f => f.is_featured) = 3 ∧
    (create_sample_data Store.empty).2.ctas.length = 1 ∧
    (∀ f ∈ (create_sample_data Store.empty).2.features,
        f.landing_page_id = 1 ∧ f.display_order = 0 ∧ f.icon_color = none) ∧
    (∀ h ∈ (create_sample_data Store.empty).2.heroes, h.landing_page_id = 1) ∧
    (∀ c ∈ (create_sample_data Store.empty).2.ctas, c.landing_page_id = 1) := by
  decide

/-- C10: every column absent from a Create schema takes its model default
in the persisted row, whatever the caller passes: created rows are always
`is_active` (hence immediately visible to the read accessors), created
features always have `display_order = 0` and no `icon_color`,
`background_color` or `text_color`, created hero sections have no
`background_color`/`text_color`, no secondary button, and `height =
"full"`, and created CTA sections have no `background_color`, default
button styles and `size = "medium"`. -/
theorem create_defaults_from_schema (st : Store) :
    (∀ (d : LandingPageCreate) (p : LandingPage) (st' : Store),
        create_landing_page st d = (.ok p, st') →
          p.is_active = true ∧ p ∈ st'.pages) ∧
    (∀ d : HeroSectionCreate,
        (create_hero_section st d).1.is_active = true ∧
        (create_hero_section st d).1.background_color = none ∧
        (create_hero_section st d).1.text_color = none ∧
        (create_hero_section st d).1.secondary_button_text = none ∧
        (create_hero_section st d).1.secondary_button_url = none ∧
        (create_hero_section st d).1.height = "full" ∧
        (create_hero_section st d).1.display_order = 0 ∧
        (create_hero_section st d).1 ∈
          get_hero_sections (create_hero_section st d).2 d.landing_page_id) ∧
    (∀ d : FeatureCreate,
        (create_feature st d).1.is_active = true ∧
        (create_feature st d).1.display_order = 0 ∧
        (create_feature st d).1.icon_color = none ∧
        (create_feature st d).1.background_color = none ∧
        (create_feature st d).1.text_color = none ∧
        (create_feature st d).1 ∈ get_features (create_feature st d).2 d.landing_page_id) ∧
    (∀ d : CallToActionSectionCreate,
        (create_cta_section st d).1.is_active = true ∧
        (create_cta_section st d).1.display_order = 0 ∧
        (create_cta_section st d).1.background_color = none ∧
        (create_cta_section st d).1.text_color = none ∧
        (create_cta_section st d).1.size = "medium" ∧
        (create_cta_section st d).1.primary_button_style = "primary" ∧
        (create_cta_section st d).1.secondary_button_style = "secondary" ∧
        (create_cta_section st d).1 ∈
          get_cta_sections (create_cta_section st d).2 d.landing_page_id) := by
  refine ⟨?_, ?_, ?_, ?_⟩
  · intro d p st' hcreate
    unfold create_landing_page at hcreate
    split at hcreate
    · simp at hcreate
    · rw [Prod.mk.injEq] at hcreate
      obtain ⟨h1, rfl⟩ := hcreate
      injection h1 with h1
      subst h1
      exact ⟨rfl, by simp⟩
  · intro d
    refine ⟨rfl, rfl, rfl, rfl, rfl, rfl, rfl, ?_⟩
    exact lem_mem_get_hero_sections.2 ⟨by simp [create_hero_section], rfl, rfl⟩
  · intro d
    refine ⟨rfl, rfl, rfl, rfl, rfl, ?_⟩
    exact lem_mem_get_features.2 ⟨by simp [create_feature], rfl, rfl⟩
  · intro d
    refine ⟨rfl, rfl, rfl, rfl, rfl, rfl, rfl, ?_⟩
    exact lem_mem_get_cta_sections.2 ⟨by simp [create_cta_section], rfl, rfl⟩

/-- Witness for C10: the page created from the fixture payload is active
and present in the resulting store. -/
theorem create_defaults_from_schema_witness :
    (LandingPage.fromCreate 1 0 exPageCreate).is_active = true ∧
    LandingPage.fromCreate 1 0 exPageCreate ∈
      (create_landing_page Store.empty exPageCreate).2.pages :=
  (create_defaults_from_schema Store.empty).1 exPageCreate
    (LandingPage.fromCreate 1 0 exPageCreate)
    (create_landing_page Store.empty exPageCreate).2 (by decide)

/-- C7: for each entity kind, creating from a given input and re-fetching
the persisted row by its id yields the very row just created, whose
schema-declared fields equal the input field for field (the id and the
timestamps being server-assigned). -/
theorem create_roundtrip (st : Store) (hwf : st.WF) :
    (∀ (d : LandingPageCreate) (p : LandingPage) (st' : Store),
        create_landing_page st d = (.ok p, st') →
          get_landing_page_by_id st' p.id = some p ∧
          p.title = d.title ∧ p.slug = d.slug ∧
          p.meta_title = d.meta_title ∧ p.meta_description = d.meta_description) ∧
    (∀ d : HeroSectionCreate,
        get_hero_section_by_id (create_hero_section st d).2 (create_hero_section st d).1.id =
          some (create_hero_section st d).1 ∧
        (create_hero_section st d).1.landing_page_id = d.landing_page_id ∧
        (create_hero_section st d).1.headline = d.headline ∧
        (create_hero_section st d).1.subheadline = d.subheadline ∧
        (create_hero_section st d).1.description = d.description ∧
        (create_hero_section st d).1.background_image_url = d.background_image_url ∧
        (create_hero_section st d).1.primary_button_text = d.primary_button_text ∧
        (create_hero_section st d).1.primary_button_url = d.primary_button_url ∧
        (create_hero_section st d).1.alignment = d.alignment) ∧
    (∀ d : FeatureCreate,
        get_feature_by_id (create_feature st d).2 (create_feature st d).1.id =
          some (create_feature st d).1 ∧
        (create_feature st d).1.landing_page_id = d.landing_page_id ∧
        (create_feature st d).1.title = d.title ∧
        (create_feature st d).1.description = d.description ∧
        (create_feature st d).1.icon = d.icon ∧
        (create_feature st d).1.image_url = d.image_url ∧
        (create_feature st d).1.link_text = d.link_text ∧
        (create_feature st d).1.link_url = d.link_url ∧
        (create_feature st d).1.is_featured = d.is_featured) ∧
    (∀ d : CallToActionSectionCreate,
        get_cta_section_by_id (create_cta_section st d).2 (create_cta_section st d).1.id =
          some (create_cta_section st d).1 ∧
        (create_cta_section st d).1.landing_page_id = d.landing_page_id ∧
        (create_cta_section st d).1.headline = d.headline ∧
        (create_cta_section st d).1.subheadline = d.subheadline ∧
        (create_cta_section st d).1.description = d.description ∧
        (create_cta_section st d).1.primary_button_text = d.primary_button_text ∧
        (create_cta_section st d).1.primary_button_url = d.primary_button_url ∧
        (create_cta_section st d).1.secondary_button_text = d.secondary_button_text ∧
        (create_cta_section st d).1.secondary_button_url = d.secondary_button_url ∧
        (create_cta_section st d).1.alignment = d.alignment) := by
  refine ⟨?_, ?_, ?_, ?_⟩
  · intro d p st' hcreate
    unfold create_landing_page at hcreate
    split at hcreate
    · simp at hcreate
    · rw [Prod.mk.injEq] at hcreate
      obtain ⟨h1, rfl⟩ := hcreate
      injection h1 with h1
      subst h1
      refine ⟨?_, rfl, rfl, rfl, rfl⟩
      unfold get_landing_page_by_id
      refine lem_find?_append_last _ _ _ ?_ (by simp)
      intro x hx
      have hlt := hwf.1 x hx
      simp only [LandingPage.fromCreate, beq_eq_false_iff_ne, ne_eq]
      omega
  · intro d
    refine ⟨?_, rfl, rfl, rfl, rfl, rfl, rfl, rfl, rfl⟩
    unfold get_hero_section_by_id
    refine lem_find?_append_last _ _ _ ?_ (by simp [create_hero_section])
    intro x hx
    have hlt := hwf.2.1 x hx
    simp only [create_hero_section, HeroSection.fromCreate, beq_eq_false_iff_ne, ne_eq]
    omega
  · intro d
    refine ⟨?_, rfl, rfl, rfl, rfl, rfl, rfl, rfl, rfl⟩
    unfold get_feature_by_id
    refine lem_find?_append_last _ _ _ ?_ (by simp [create_feature])
    intro x hx
    have hlt := hwf.2.2.1 x hx
    simp only [create_feature, Feature.fromCreate, beq_eq_false_iff_ne, ne_eq]
    omega
  · intro d
    refine ⟨?_, rfl, rfl, rfl, rfl, rfl, rfl, rfl, rfl, rfl⟩
    unfold get_cta_section_by_id
    refine lem_find?_append_last _ _ _ ?_ (by simp [create_cta_section])
    intro x hx
    have hlt := hwf.2.2.2 x hx
    simp only [create_cta_section, CallToActionSection.fromCreate, beq_eq_false_iff_ne, ne_eq]
    omega

/-- Witness for C7: round-trip of a concrete page payload on the empty
store. -/
theorem create_roundtrip_witness :
    get_landing_page_by_id (create_landing_page Store.empty exPageCreate).2
        (LandingPage.fromCreate 1 0 exPageCreate).id =
      some (LandingPage.fromCreate 1 0 exPageCreate) :=
  ((create_roundtrip Store.empty (by decide)).1 exPageCreate
    (LandingPage.fromCreate 1 0 exPageCreate)
    (create_landing_page Store.empty exPageCreate).2 (by decide)).1

/-- Counterexample to C8: the bootstrap generator performs no pre-check for
an existing "home" page, but the second of two consecutive calls does NOT
succeed: the slug unique constraint rejects its very first insert, so no
second page is created (the page count stays 1). -/
theorem sample_twice_counterexample :
    (create_sample_data Store.empty).1 =
      .ok (LandingPage.fromCreate 1 0 sampleLandingPageCreate) ∧
    (create_sample_data stSeeded).1 = .error .constraintError ∧
    (create_sample_data stSeeded).2.pages.length = 1 := by decide

/-- C8 (amended): `generateSampleContent` performs no check for an existing
"home" page before inserting; on any store already holding a page with slug
"home" it fails with `ConstraintError` at page creation — the store's
unique-slug constraint, not a pre-check, stops the duplicate — and leaves
the store unchanged, so two Pages are never created. -/
theorem sample_second_call_fails (st : Store)
    (h : ∃ p ∈ st.pages, p.slug = "home") :
    create_sample_data st = (.error .constraintError, st) := by
  have hc := lem_create_page_collision st sampleLandingPageCreate (by
    obtain ⟨p, hp, hs⟩ := h
    exact ⟨p, hp, hs⟩)
  unfold create_sample_data create_sample_data_fx
  simp [hc]

/-- Witness for C8: the second bootstrap call on the seeded store. -/
theorem sample_second_call_fails_witness :
    create_sample_data stSeeded = (.error .constraintError, stSeeded) :=
  sample_second_call_fails stSeeded (by decide)

/-- C9: the bootstrap sequence is not transactional.  If the `k`-th insert
(1 = hero, 2-7 = features, 8 = CTA) fails after the page was created, the
error propagates, yet the new active "home" page and every component
inserted before the failure remain in the store — nothing is rolled back;
if page creation itself (insert 0) fails, the error propagates and the
store is untouched, so no component is inserted. -/
theorem sample_data_not_atomic (st : Store) (k : Nat)
    (h1 : 1 ≤ k) (h2 : k ≤ 8)
    (h3 : ∀ p ∈ st.pages, p.slug ≠ "home") :
    (create_sample_data_fx st (some k)).1 = .error .insertFailed ∧
    (∃ p ∈ (create_sample_data_fx st (some k)).2.pages,
        p.slug = "home" ∧ p.is_active = true) ∧
    (create_sample_data_fx st (some k)).2.pages.length = st.pages.length + 1 ∧
    (create_sample_data_fx st (some k)).2.heroes.length = st.heroes.length + min 1 (k - 1) ∧
    (create_sample_data_fx st (some k)).2.features.length = st.features.length + min 6 (k - 2) ∧
    (create_sample_data_fx st (some k)).2.ctas.length = st.ctas.length ∧
    create_sample_data_fx st (some 0) = (.error .insertFailed, st) := by
  have hsucc := lem_create_page_success st sampleLandingPageCreate (fun p hp => h3 p hp)
  interval_cases k <;>
    refine ⟨?_,
      ⟨LandingPage.fromCreate st.nextPageId st.clock sampleLandingPageCreate, ?_, rfl, rfl⟩,
      ?_, ?_, ?_, ?_, ?_⟩ <;>
    simp [create_sample_data_fx, hsucc, insertFeaturesFx, sampleFeatureCreates,
      create_hero_section, create_feature, create_cta_section]

/-- Witness for C9: a failure at the third feature insert on the empty
store still propagates an error. -/
theorem sample_data_not_atomic_witness :
    (create_sample_data_fx Store.empty (some 4)).1 = .error .insertFailed :=
  (sample_data_not_atomic Store.empty 4 (by decide) (by decide) (by decide)).1

end LandingSpec
